import Mathlib

/-!
Shallow embedding of the deletion/caching core of zep-web-interface:
  - internal/cache/cache.go        (TTL cache)
  - internal/server/server.go      (DeleteUserWithCleanup, DeleteUserGraphData, DeleteUser)
  - internal/handlers/deletion.go  (DeletionTracker, DeleteUserEnhanced)
  - internal/handlers/async.go     (UserGraphAsync single-flight check)

Timestamps are modelled as `Nat`; Go `time.Now().After(t)` at instant `now`
is `t < now`.  Fallible downstream calls are oracle functions stored in a
`Client` record; a Go `error` result is `Option String` (`some msg` = error)
or `Except String` where a value is also returned.
-/

namespace ZepWeb

/-! ## TTL cache — internal/cache/cache.go -/

/-- `CacheItem` from cache.go: `{ Data interface{}; ExpiresAt time.Time }`. -/
structure CacheItem (α : Type) where
  data : α
  expiresAt : Nat

/-- `Cache` from cache.go: the underlying map (mutex elided; every exported
operation holds the lock for its whole body, so each is one atomic step). -/
structure Cache (α : Type) where
  items : String → Option (CacheItem α)

/-- `Set`: store under `key` with expiry `now + duration`, overwriting. -/
def Cache.set (c : Cache α) (key : String) (data : α) (duration now : Nat) : Cache α :=
  ⟨fun k => if k = key then some ⟨data, now + duration⟩ else c.items k⟩

/-- `Get`: `nil, false` when absent; `nil, false` when `time.Now().After(ExpiresAt)`;
otherwise the stored data. -/
def Cache.get (c : Cache α) (key : String) (now : Nat) : Option α :=
  match c.items key with
  | none => none
  | some item => if item.expiresAt < now then none else some item.data

/-- `Delete`: remove unconditionally; absent key is a no-op. -/
def Cache.delete (c : Cache α) (key : String) : Cache α :=
  ⟨fun k => if k = key then none else c.items k⟩

/-- One run of the `cleanup` sweep body at instant `now`: drop every entry
with `now.After(ExpiresAt)`. -/
def Cache.sweep (c : Cache α) (now : Nat) : Cache α :=
  ⟨fun k =>
    match c.items k with
    | none => none
    | some item => if item.expiresAt < now then none else some item⟩

/-! ## Graph-cleanup probe — server.go `DeleteUserGraphData` -/

/-- Outcome of one candidate attempt: request construction failed
(`http.NewRequest` error), transport failed (`client.Do` error), or an HTTP
status with a body. -/
inductive HttpResp where
  | reqError (reason : String)
  | netError (reason : String)
  | status (code : Nat) (body : String)

/-- The success test of the probe: `resp.StatusCode == 200 || resp.StatusCode == 404`.
A `reqError`/`netError` candidate falls through to `continue`. -/
def isCleanupHit : HttpResp → Bool
  | .status code _ => code == 200 || code == 404
  | _ => false

/-- The candidate loop of `DeleteUserGraphData`: try candidates in list order;
on the first 200/404 group-deletion response run the database-deletion step
(`d url` — every one of its arms returns `nil` in the source, so its response
is discarded) and stop with success; any other outcome tries the next URL.
Returns the list of attempted URLs in order and whether a candidate hit. -/
def probeLoop (g : String → HttpResp) (d : String → HttpResp) : List String → List String × Bool
  | [] => ([], false)
  | url :: rest =>
    if isCleanupHit (g url) then
      let _db := d url
      ([url], true)
    else
      let r := probeLoop g d rest
      (url :: r.1, r.2)

/-- `DeleteUserGraphData` over an arbitrary candidate list: on exhaustion it
returns `fmt.Errorf("no graph service responded successfully (tried %d URLs)",
len(graphServiceURLs))`. -/
def deleteUserGraphDataWith (g d : String → HttpResp) (urls : List String) :
    List String × Except String Unit :=
  let r := probeLoop g d urls
  (r.1,
    if r.2 then Except.ok ()
    else Except.error
      ("no graph service responded successfully (tried " ++ toString urls.length ++ " URLs)"))

/-- The hard-coded candidate list `graphServiceURLs` of server.go. -/
def graphServiceURLs : List String :=
  ["http://zep-falkordb-service.railway.internal:8003",
   "http://zep-falkordb-service:8003",
   "http://localhost:8003",
   "http://127.0.0.1:8003"]

/-! ## Cascading deletion — server.go `DeleteUserWithCleanup` -/

/-- `Session` from server.go; only `SessionID` is read by the deletion path. -/
structure Session where
  sessionID : String

/-- The downstream collaborator as response oracles, one per outbound call of
the deletion path.  `deleteSession`/`deleteUser` return `some msg` on error,
`none` on success.  `groupResp`/`dbResp` take the candidate base URL and the
user id (the request URL is `base ++ "/group/" ++ user`, resp. `"/database/"`). -/
structure Client where
  baseURL : String
  getUserSessions : String → Except String (List Session)
  deleteSession : String → Option String
  groupResp : String → String → HttpResp
  dbResp : String → String → HttpResp
  deleteUser : String → Option String

/-- `DeleteUserGraphData` as called on a client for a user. -/
def deleteUserGraphData (c : Client) (userID : String) : List String × Except String Unit :=
  deleteUserGraphDataWith (fun base => c.groupResp base userID)
    (fun base => c.dbResp base userID) graphServiceURLs

/-- Step 2 of `DeleteUserWithCleanup`: `for _, session := range sessions`,
delete each; an error is logged and the loop continues.  Records every
attempt with its outcome. -/
def deleteSessionsLoop (del : String → Option String) : List Session → List (String × Option String)
  | [] => []
  | s :: rest => (s.sessionID, del s.sessionID) :: deleteSessionsLoop del rest

/-- The observable results of one `DeleteUserWithCleanup` run. -/
structure CleanupRun where
  sessionAttempts : List (String × Option String)
  graphCleanup : Option (List String × Except String Unit)
  result : Except String Unit

/-- `DeleteUserWithCleanup`:
Step 1 `GetUserSessions` — on error log and continue with the `nil` slice;
Step 2 delete each session, continuing past per-session errors;
Step 3 `DeleteUserGraphData` when `c.baseURL != ""`, its error only logged;
Step 4 `DeleteUser` — the only call whose error is returned, wrapped as
`fmt.Errorf("failed to delete user from Zep server: %w", err)`. -/
def deleteUserWithCleanup (c : Client) (userID : String) : CleanupRun :=
  let sessions :=
    match c.getUserSessions userID with
    | .ok s => s
    | .error _ => []
  let attempts := deleteSessionsLoop c.deleteSession sessions
  let graph := if c.baseURL = "" then none else some (deleteUserGraphData c userID)
  match c.deleteUser userID with
  | some e => ⟨attempts, graph, Except.error ("failed to delete user from Zep server: " ++ e)⟩
  | none => ⟨attempts, graph, Except.ok ()⟩

/-! ## Progress tracker — handlers/deletion.go -/

/-- `DeletionStatus` from deletion.go (Go `int` progress modelled as `Int`;
`Error` is the zero-value `""` until `MarkFailed` fills it). -/
structure DeletionStatus where
  userID : String
  status : String
  progress : Int
  message : String
  startedAt : Nat
  error : String

/-- `DeletionTracker`: the `statuses` map (mutex elided; every method holds
the lock for its whole body). -/
structure DeletionTracker where
  statuses : String → Option DeletionStatus

/-- `TrackDeletion`: store a fresh `started` entry, progress 10. -/
def trackDeletion (dt : DeletionTracker) (userID : String) (now : Nat) : DeletionTracker :=
  ⟨fun k => if k = userID then
      some ⟨userID, "started", 10, "Starting user deletion...", now, ""⟩
    else dt.statuses k⟩

/-- `UpdateStatus`: when the id is tracked, overwrite status, message and
progress (no comparison with the previous progress); otherwise do nothing. -/
def updateStatus (dt : DeletionTracker) (userID status message : String) (progress : Int) :
    DeletionTracker :=
  match dt.statuses userID with
  | some d =>
    ⟨fun k => if k = userID then
        some { d with status := status, message := message, progress := progress }
      else dt.statuses k⟩
  | none => dt

/-- `MarkCompleted`: when tracked, set `completed`/100 and spawn the 30 s
auto-cleanup goroutine (returned as the scheduled `(id, delay)` list);
otherwise do nothing and schedule nothing. -/
def markCompleted (dt : DeletionTracker) (userID : String) :
    DeletionTracker × List (String × Nat) :=
  match dt.statuses userID with
  | some d =>
    (⟨fun k => if k = userID then
        some { d with status := "completed",
                      message := "User deletion completed successfully",
                      progress := 100 }
      else dt.statuses k⟩, [(userID, 30)])
  | none => (dt, [])

/-- `MarkFailed`: when tracked, set `failed`, store the error message, reset
progress to 0 and spawn the 60 s auto-cleanup; otherwise do nothing. -/
def markFailed (dt : DeletionTracker) (userID err : String) :
    DeletionTracker × List (String × Nat) :=
  match dt.statuses userID with
  | some d =>
    (⟨fun k => if k = userID then
        some { d with status := "failed",
                      message := "User deletion failed",
                      error := err,
                      progress := 0 }
      else dt.statuses k⟩, [(userID, 60)])
  | none => (dt, [])

/-! ## Enhanced deletion handler — handlers/deletion.go `DeleteUserEnhanced` -/

/-- `DeleteUserEnhanced`, first half: `TrackDeletion` in the handler, then
the background goroutine's status updates up to and including the
`deleting_user`/80 update, in program order. -/
def preTerminalTracker (c : Client) (userID : String) (now : Nat)
    (dt : DeletionTracker) : DeletionTracker :=
  let dt := trackDeletion dt userID now
  -- Step 1: fetch sessions
  let dt := updateStatus dt userID "fetching_sessions" "Retrieving user sessions..." 20
  let fetched := c.getUserSessions userID
  let dt :=
    match fetched with
    | .error _ => updateStatus dt userID "sessions_partial"
        "Could not fetch all sessions, continuing..." 30
    | .ok sessions => updateStatus dt userID "sessions_found"
        ("Found " ++ toString sessions.length ++ " sessions to delete") 40
  let sessions := match fetched with | .ok s => s | .error _ => []
  -- Step 2: session deletion progress note
  let dt :=
    if sessions.length > 0 then
      updateStatus dt userID "deleting_sessions" "Deleting user sessions..." 50
    else
      updateStatus dt userID "no_sessions" "No sessions to delete" 60
  -- Step 3
  let dt := updateStatus dt userID "graph_cleanup" "Starting graph data cleanup..." 70
  -- Step 4 announcement: the cascading deletion runs next
  updateStatus dt userID "deleting_user" "Deleting user from server..." 80

/-- `DeleteUserEnhanced` for one user, run to completion (`α` is the payload
type of the handler cache): the status updates of `preTerminalTracker`, then
`DeleteUserWithCleanup` — its error marks the job failed and returns, leaving
the cache untouched; success clears the `user:`/`episodes:`/`graph:` keys and
marks the job completed.  Returns the final tracker, the final cache, and
the auto-cleanup schedule produced by the terminal mark.  The panic-recovery
path is not modelled (no step of the model panics). -/
def deleteUserEnhanced (c : Client) (userID : String) (now : Nat)
    (dt : DeletionTracker) (cache : Cache α) :
    DeletionTracker × Cache α × List (String × Nat) :=
  let dt := preTerminalTracker c userID now dt
  match (deleteUserWithCleanup c userID).result with
  | .error e =>
    let r := markFailed dt userID e
    (r.1, cache, r.2)
  | .ok _ =>
    -- Step 5: clear cache, then mark completed
    let dt := updateStatus dt userID "clearing_cache" "Clearing cached data..." 90
    let cache := ((cache.delete ("user:" ++ userID)).delete
        ("episodes:" ++ userID)).delete ("graph:" ++ userID)
    let r := markCompleted dt userID
    (r.1, cache, r.2)

/-! ## Async single-flight check — handlers/async.go `UserGraphAsync`

Each cache operation of the handler is one atomic step (the cache mutex is
held per operation, not across the check-then-set sequence), so a request is
the sequence of atomic steps below and concurrent requests interleave them.
Only the window before the background goroutine resolves is modelled, so the
result key stays absent and the loading sentinel, once set, stays set. -/

/-- Shared state visible to concurrent `UserGraphAsync` requests for one user:
whether `graph:<id>` is cached, whether the `graph:loading:<id>` sentinel is
present, and how many times the background load (`GetUserGraphTriplets`) has
been started. -/
structure AsyncState where
  resultPresent : Bool
  loading : Bool
  invocations : Nat

/-- One request as a program over atomic cache steps; `pc` counts them:
pc 0 — `cache.Get(cacheKey)`, respond and finish when found;
pc 1 — `cache.Get(loadingKey)`, respond `loading` and finish when present;
pc 2 — `cache.Set(loadingKey, true, ...)` and start the background goroutine
(one more invocation), then respond `loading`;
pc 3 — finished. -/
def asyncStep (s : AsyncState) (pc : Nat) : AsyncState × Nat :=
  match pc with
  | 0 => if s.resultPresent then (s, 3) else (s, 1)
  | 1 => if s.loading then (s, 3) else (s, 2)
  | 2 => ({ s with loading := true, invocations := s.invocations + 1 }, 3)
  | _ => (s, 3)

/-- Two concurrent requests A and B with their program counters. -/
structure TwoRequests where
  st : AsyncState
  pcA : Nat
  pcB : Nat

/-- Run one scheduler choice: `true` steps request A, `false` steps B. -/
def asyncSchedStep (t : TwoRequests) (choice : Bool) : TwoRequests :=
  if choice then
    let r := asyncStep t.st t.pcA
    ⟨r.1, r.2, t.pcB⟩
  else
    let r := asyncStep t.st t.pcB
    ⟨r.1, t.pcA, r.2⟩

/-- Both requests arrive while nothing is cached and nothing is loading. -/
def asyncInit : TwoRequests := ⟨⟨false, false, 0⟩, 0, 0⟩

/-- Execute a schedule (a list of scheduler choices) from `asyncInit`. -/
def asyncRun (sched : List Bool) : TwoRequests :=
  sched.foldl asyncSchedStep asyncInit

/-! ## Helper lemmas -/

theorem deleteSessionsLoop_map_fst (del : String → Option String) (l : List Session) :
    (deleteSessionsLoop del l).map Prod.fst = l.map Session.sessionID := by
  induction l with
  | nil => rfl
  | cons s rest ih => simp [deleteSessionsLoop, ih]

theorem deleteSessionsLoop_length (del : String → Option String) (l : List Session) :
    (deleteSessionsLoop del l).length = l.length := by
  induction l with
  | nil => rfl
  | cons s rest ih => simp [deleteSessionsLoop, ih]

theorem probeLoop_take (g d : String → HttpResp) (urls : List String) :
    (probeLoop g d urls).1 = urls.take (probeLoop g d urls).1.length := by
  induction urls with
  | nil => rfl
  | cons url rest ih =>
    by_cases hh : isCleanupHit (g url)
    · simp [probeLoop, hh]
    · simp [probeLoop, hh]
      exact ih

theorem probeLoop_hit (g d : String → HttpResp) (urls : List String) (i : Nat)
    (h : i < urls.length) (hhit : isCleanupHit (g (urls.get ⟨i, h⟩)) = true) :
    (probeLoop g d urls).1.length ≤ i + 1 ∧ (probeLoop g d urls).2 = true := by
  induction urls generalizing i with
  | nil => exact absurd h (Nat.not_lt_zero i)
  | cons url rest ih =>
    cases i with
    | zero =>
      have hh : isCleanupHit (g url) = true := hhit
      simp [probeLoop, hh]
    | succ i =>
      by_cases hh : isCleanupHit (g url)
      · simp [probeLoop, hh]
      · have hrest := ih i (Nat.lt_of_succ_lt_succ h) hhit
        simp [probeLoop, hh]
        exact hrest

theorem probeLoop_pos (g d : String → HttpResp) (url : String) (rest : List String) :
    1 ≤ (probeLoop g d (url :: rest)).1.length := by
  by_cases hh : isCleanupHit (g url) <;> simp [probeLoop, hh]

theorem probeLoop_failures_continue (g d : String → HttpResp) (urls : List String)
    (j : Nat) (h : j + 1 < urls.length)
    (hfail : ∀ u ∈ urls.take (j + 1), isCleanupHit (g u) = false) :
    j + 2 ≤ (probeLoop g d urls).1.length := by
  induction urls generalizing j with
  | nil => simp at h
  | cons url rest ih =>
    have hhead : isCleanupHit (g url) = false := by
      apply hfail
      simp [List.take_succ_cons]
    simp only [probeLoop, hhead, Bool.false_eq_true, if_false, List.length_cons]
    cases j with
    | zero =>
      cases rest with
      | nil => simp at h
      | cons r rs => exact Nat.succ_le_succ (probeLoop_pos g d r rs)
    | succ j =>
      have h' : j + 1 < rest.length := by simpa using h
      have hfail' : ∀ u ∈ rest.take (j + 1), isCleanupHit (g u) = false := by
        intro u hu
        exact hfail u (by simp [List.take_succ_cons, hu])
      exact Nat.succ_le_succ (ih j h' hfail')

theorem probeLoop_allfail (g d : String → HttpResp) (urls : List String)
    (h : ∀ u ∈ urls, isCleanupHit (g u) = false) :
    probeLoop g d urls = (urls, false) := by
  induction urls with
  | nil => rfl
  | cons url rest ih =>
    have hh : isCleanupHit (g url) = false := h url (by simp)
    have hrest := ih (fun u hu => h u (by simp [hu]))
    simp [probeLoop, hh, hrest]

theorem updateStatus_isSome (dt : DeletionTracker) (id s m : String) (p : Int) :
    ((updateStatus dt id s m p).statuses id).isSome = (dt.statuses id).isSome := by
  cases h : dt.statuses id <;> simp [updateStatus, h]

theorem preTerminalTracker_isSome (c : Client) (userID : String) (now : Nat)
    (dt : DeletionTracker) :
    ((preTerminalTracker c userID now dt).statuses userID).isSome = true := by
  unfold preTerminalTracker
  cases hf : c.getUserSessions userID with
  | error e => simp [hf, updateStatus_isSome, trackDeletion]
  | ok s =>
    by_cases hl : s.length > 0 <;>
      simp [hf, hl, updateStatus_isSome, trackDeletion]

theorem markFailed_fields (dt : DeletionTracker) (id e : String)
    (h : (dt.statuses id).isSome = true) :
    ((markFailed dt id e).1.statuses id).map DeletionStatus.status = some "failed"
  ∧ ((markFailed dt id e).1.statuses id).map DeletionStatus.error = some e
  ∧ ((markFailed dt id e).1.statuses id).map DeletionStatus.progress = some 0
  ∧ (markFailed dt id e).2 = [(id, 60)] := by
  cases h' : dt.statuses id with
  | none => simp [h'] at h
  | some d => simp [markFailed, h']

theorem markCompleted_fields (dt : DeletionTracker) (id : String)
    (h : (dt.statuses id).isSome = true) :
    ((markCompleted dt id).1.statuses id).map DeletionStatus.status = some "completed"
  ∧ ((markCompleted dt id).1.statuses id).map DeletionStatus.progress = some 100
  ∧ (markCompleted dt id).2 = [(id, 30)] := by
  cases h' : dt.statuses id with
  | none => simp [h'] at h
  | some d => simp [markCompleted, h']

/-! ## Concrete fixtures used by witnesses and counterexamples -/

/-- A tracker with no jobs. -/
def emptyTrackerW : DeletionTracker := ⟨fun _ => none⟩

/-- An empty handler cache. -/
def emptyCacheW : Cache Nat := ⟨fun _ => none⟩

/-- A handler cache holding derived data for user `u` under `user:u`,
expiring far in the future. -/
def cacheUserW : Cache Nat := ⟨fun k => if k = "user:u" then some ⟨7, 1000⟩ else none⟩

/-- A cache holding `42` under `"a"` with expiry instant 100. -/
def cacheW : Cache Nat := ⟨fun k => if k = "a" then some ⟨42, 100⟩ else none⟩

/-- A client whose every downstream call succeeds. -/
def clientOkW : Client where
  baseURL := "http://zep:8000"
  getUserSessions := fun _ => Except.ok [⟨"s1"⟩, ⟨"s2"⟩]
  deleteSession := fun _ => none
  groupResp := fun _ _ => HttpResp.status 200 ""
  dbResp := fun _ _ => HttpResp.status 200 ""
  deleteUser := fun _ => none

/-- Same primary deletion as `clientOkW`, but the session fetch fails, every
session deletion fails, and every graph-cleanup candidate fails. -/
def clientNoisyW : Client where
  baseURL := "http://zep:8000"
  getUserSessions := fun _ => Except.error "sessions unavailable"
  deleteSession := fun _ => some "session delete failed"
  groupResp := fun _ _ => HttpResp.netError "connection refused"
  dbResp := fun _ _ => HttpResp.netError "connection refused"
  deleteUser := fun _ => none

/-- Every downstream call succeeds except the primary deletion, which fails
with `"not found"`. -/
def clientNotFoundW : Client :=
  { clientOkW with deleteUser := fun _ => some "not found" }

/-- Five sessions where the third always fails to delete. -/
def clientFanoutW : Client where
  baseURL := ""
  getUserSessions := fun _ =>
    Except.ok [⟨"s1"⟩, ⟨"s2"⟩, ⟨"s3"⟩, ⟨"s4"⟩, ⟨"s5"⟩]
  deleteSession := fun sid => if sid = "s3" then some "boom" else none
  groupResp := fun _ _ => HttpResp.status 200 ""
  dbResp := fun _ _ => HttpResp.status 200 ""
  deleteUser := fun _ => none

/-- The spec's probe example: candidate `A` times out, `B` succeeds, any
other candidate would return a server error. -/
def probeRespW : String → HttpResp := fun url =>
  if url = "A" then HttpResp.netError "timeout"
  else if url = "B" then HttpResp.status 200 ""
  else HttpResp.status 500 "server error"

/-- Every graph-cleanup candidate times out. -/
def clientGraphTimeoutW : Client :=
  { clientOkW with
    groupResp := fun _ _ => HttpResp.netError "timeout"
    dbResp := fun _ _ => HttpResp.netError "timeout" }

/-- Every graph-cleanup candidate is refused. -/
def clientGraphRefusedW : Client :=
  { clientOkW with
    groupResp := fun _ _ => HttpResp.netError "connection refused"
    dbResp := fun _ _ => HttpResp.netError "connection refused" }

/-! ## Claim theorems -/

/-- Claim C3: `Get` returns not-found for an absent or expired key, never
returns the value of an entry whose expiry has passed, and its answer is
unchanged by whether the background sweep (run at any instant `t ≤ now`)
has already removed expired entries. -/
theorem cache_get_lazy_expiry {α : Type} (c : Cache α) (key : String) (now t : Nat)
    (ht : t ≤ now) :
    (c.items key = none → c.get key now = none)
  ∧ (∀ item, c.items key = some item → item.expiresAt < now → c.get key now = none)
  ∧ (∀ v, c.get key now = some v →
      ∃ item, c.items key = some item ∧ ¬ item.expiresAt < now ∧ v = item.data)
  ∧ (c.sweep t).get key now = c.get key now := by
  refine ⟨?_, ?_, ?_, ?_⟩
  · intro h; simp [Cache.get, h]
  · intro item h hexp; simp [Cache.get, h, hexp]
  · intro v hv
    unfold Cache.get at hv
    cases h : c.items key with
    | none => rw [h] at hv; cases hv
    | some item =>
      rw [h] at hv
      by_cases hexp : item.expiresAt < now
      · simp [hexp] at hv
      · simp [hexp] at hv
        exact ⟨item, rfl, hexp, hv.symm⟩
  · cases h : c.items key with
    | none => simp [Cache.get, Cache.sweep, h]
    | some item =>
      by_cases hexp : item.expiresAt < t
      · have hnow : item.expiresAt < now := lt_of_lt_of_le hexp ht
        simp [Cache.get, Cache.sweep, h, hexp, hnow]
      · simp [Cache.get, Cache.sweep, h, hexp]

/-- Witness for C3 at a concrete cache: entry expired at 100, read at 150,
sweep run at 120. -/
theorem cache_get_lazy_expiry_witness :
    120 ≤ 150 ∧ (cacheW.sweep 120).get "a" 150 = cacheW.get "a" 150 :=
  ⟨by decide, (cache_get_lazy_expiry cacheW "a" 150 120 (by decide)).2.2.2⟩

/-- Claim C1: `DeleteUserWithCleanup` fails exactly when the primary
`DeleteUser` call fails; the session fetch, the per-session deletions and
the graph cleanup never influence the returned outcome (two clients that
agree on the primary deletion yield the same result). -/
theorem deleteUserWithCleanup_result_iff (c c' : Client) (userID : String)
    (h : c.deleteUser userID = c'.deleteUser userID) :
    ((deleteUserWithCleanup c userID).result = Except.ok () ↔ c.deleteUser userID = none)
  ∧ (deleteUserWithCleanup c userID).result = (deleteUserWithCleanup c' userID).result := by
  constructor
  · cases hd : c.deleteUser userID <;> simp [deleteUserWithCleanup, hd]
  · have h' : c'.deleteUser userID = c.deleteUser userID := h.symm
    cases hd : c.deleteUser userID <;> rw [hd] at h' <;>
      simp [deleteUserWithCleanup, hd, h']

/-- Witness for C1: an all-success client and a client whose session fetch,
session deletions and graph cleanup all fail produce the same (successful)
outcome. -/
theorem deleteUserWithCleanup_result_iff_witness :
    ((deleteUserWithCleanup clientOkW "u").result = Except.ok ()
        ↔ clientOkW.deleteUser "u" = none)
  ∧ (deleteUserWithCleanup clientOkW "u").result
      = (deleteUserWithCleanup clientNoisyW "u").result :=
  deleteUserWithCleanup_result_iff clientOkW clientNoisyW "u" rfl

/-- Claim C4: for a fetched list of N sessions, the cleanup attempts each
session's deletion exactly once, in order, whatever errors the individual
deletions return — N attempts, one per session, no early abort. -/
theorem deleteUserWithCleanup_attempts_all (c : Client) (userID : String)
    (sessions : List Session)
    (h : c.getUserSessions userID = Except.ok sessions) :
    ((deleteUserWithCleanup c userID).sessionAttempts.map Prod.fst
      = sessions.map Session.sessionID)
  ∧ (deleteUserWithCleanup c userID).sessionAttempts.length = sessions.length := by
  have hatt : (deleteUserWithCleanup c userID).sessionAttempts
      = deleteSessionsLoop c.deleteSession sessions := by
    unfold deleteUserWithCleanup
    rw [h]
    cases hd : c.deleteUser userID <;> simp [hd]
  rw [hatt]
  exact ⟨deleteSessionsLoop_map_fst _ _, deleteSessionsLoop_length _ _⟩

/-- Witness for C4: five sessions, the third failing, still give five
attempts `s1..s5` in order. -/
theorem deleteUserWithCleanup_attempts_all_witness :
    ((deleteUserWithCleanup clientFanoutW "u").sessionAttempts.map Prod.fst
      = [⟨"s1"⟩, ⟨"s2"⟩, ⟨"s3"⟩, ⟨"s4"⟩, ⟨"s5"⟩].map Session.sessionID)
  ∧ (deleteUserWithCleanup clientFanoutW "u").sessionAttempts.length
      = ([⟨"s1"⟩, ⟨"s2"⟩, ⟨"s3"⟩, ⟨"s4"⟩, ⟨"s5"⟩] : List Session).length :=
  deleteUserWithCleanup_attempts_all clientFanoutW "u" _ rfl

/-- Claim C5: the probe tries candidates strictly in list order (the
attempted URLs are an initial segment of the candidate list); a candidate
responding 200 or 404 stops the search at once with a successful outcome
(no candidate beyond position `i` is attempted); and as long as only
failures (request error, transport error, other status) have been seen,
the next candidate is tried. -/
theorem probe_stop_on_first_hit (g d : String → HttpResp) :
    (∀ urls : List String,
      (deleteUserGraphDataWith g d urls).1
        = urls.take (deleteUserGraphDataWith g d urls).1.length)
  ∧ (∀ (urls : List String) (i : Nat) (h : i < urls.length),
      isCleanupHit (g (urls.get ⟨i, h⟩)) = true →
        (deleteUserGraphDataWith g d urls).1.length ≤ i + 1
      ∧ (deleteUserGraphDataWith g d urls).2 = Except.ok ())
  ∧ (∀ (urls : List String) (j : Nat), j + 1 < urls.length →
      (∀ u ∈ urls.take (j + 1), isCleanupHit (g u) = false) →
        j + 2 ≤ (deleteUserGraphDataWith g d urls).1.length) := by
  refine ⟨?_, ?_, ?_⟩
  · intro urls
    simpa [deleteUserGraphDataWith] using probeLoop_take g d urls
  · intro urls i h hhit
    have hp := probeLoop_hit g d urls i h hhit
    constructor
    · simpa [deleteUserGraphDataWith] using hp.1
    · simp [deleteUserGraphDataWith, hp.2]
  · intro urls j h hfail
    simpa [deleteUserGraphDataWith] using probeLoop_failures_continue g d urls j h hfail

/-- Witness for C5 at the spec's example `[A(timeout), B(success), C]`: only
two candidates are attempted and the probe succeeds. -/
theorem probe_stop_on_first_hit_witness :
    (deleteUserGraphDataWith probeRespW probeRespW ["A", "B", "C"]).1.length ≤ 2
  ∧ (deleteUserGraphDataWith probeRespW probeRespW ["A", "B", "C"]).2 = Except.ok () :=
  (probe_stop_on_first_hit probeRespW probeRespW).2.1 ["A", "B", "C"] 1 (by decide) (by decide)

/-- Counterexample for C9: with every candidate failing, the aggregate error
is the same fixed sentence whether the candidates timed out or were refused,
and the same again for a wholly different candidate list of the same length —
so it lists neither the attempted candidates nor any per-candidate reason,
although all four candidates were attempted. -/
theorem graphData_error_lists_nothing :
    (deleteUserGraphData clientGraphTimeoutW "u").2
      = Except.error "no graph service responded successfully (tried 4 URLs)"
  ∧ (deleteUserGraphData clientGraphRefusedW "u").2
      = Except.error "no graph service responded successfully (tried 4 URLs)"
  ∧ (deleteUserGraphDataWith (fun _ => HttpResp.netError "timeout")
        (fun _ => HttpResp.status 200 "") ["w", "x", "y", "z"]).2
      = Except.error "no graph service responded successfully (tried 4 URLs)"
  ∧ (deleteUserGraphData clientGraphTimeoutW "u").1 = graphServiceURLs := by
  refine ⟨?_, ?_, ?_, ?_⟩ <;> rfl

/-- Amended C9: when every candidate fails, all candidates are attempted and
the probe returns the aggregate error
`"no graph service responded successfully (tried N URLs)"` where `N` is the
number of candidates — the failure reports only this count. -/
theorem graphData_allfail_aggregate (g d : String → HttpResp) (urls : List String)
    (h : ∀ u ∈ urls, isCleanupHit (g u) = false) :
    (deleteUserGraphDataWith g d urls).1 = urls
  ∧ (deleteUserGraphDataWith g d urls).2
      = Except.error ("no graph service responded successfully (tried "
          ++ toString urls.length ++ " URLs)") := by
  have hp := probeLoop_allfail g d urls h
  constructor <;> simp [deleteUserGraphDataWith, hp]

/-- Witness for the amended C9 at the hard-coded candidate list with every
candidate timing out. -/
theorem graphData_allfail_aggregate_witness :
    (deleteUserGraphDataWith (fun _ => HttpResp.netError "timeout")
        (fun _ => HttpResp.status 200 "") graphServiceURLs).1 = graphServiceURLs
  ∧ (deleteUserGraphDataWith (fun _ => HttpResp.netError "timeout")
        (fun _ => HttpResp.status 200 "") graphServiceURLs).2
      = Except.error ("no graph service responded successfully (tried "
          ++ toString graphServiceURLs.length ++ " URLs)") :=
  graphData_allfail_aggregate _ _ graphServiceURLs (by decide)

/-- Counterexample for C7: after `TrackDeletion` (progress 10), an
`UpdateStatus` carrying progress 5 stores 5 — the regression is neither
rejected nor clamped — and `MarkFailed` resets progress from 10 to 0 rather
than leaving it unchanged. -/
theorem tracker_progress_regression :
    ((trackDeletion emptyTrackerW "u" 0).statuses "u").map DeletionStatus.progress
      = some 10
  ∧ ((updateStatus (trackDeletion emptyTrackerW "u" 0) "u" "fetching_sessions" "m" 5).statuses
        "u").map DeletionStatus.progress = some 5
  ∧ ((markFailed (trackDeletion emptyTrackerW "u" 0) "u" "boom").1.statuses "u").map
        DeletionStatus.progress = some 0
  ∧ (5 : Int) < 10 := by
  refine ⟨by decide, by decide, by decide, by decide⟩

/-- Amended C7: for a tracked id, `UpdateStatus` stores the given progress
unconditionally (regressions are neither rejected nor clamped),
`MarkCompleted` sets progress to 100, and `MarkFailed` resets progress
to 0. -/
theorem tracker_progress_policy (dt : DeletionTracker) (id s m e : String) (p : Int)
    (h : (dt.statuses id).isSome = true) :
    ((updateStatus dt id s m p).statuses id).map DeletionStatus.progress = some p
  ∧ ((markCompleted dt id).1.statuses id).map DeletionStatus.progress = some 100
  ∧ ((markFailed dt id e).1.statuses id).map DeletionStatus.progress = some 0 := by
  cases h' : dt.statuses id with
  | none => simp [h'] at h
  | some d => simp [updateStatus, markCompleted, markFailed, h']

/-- Witness for the amended C7 on a freshly tracked job. -/
theorem tracker_progress_policy_witness :
    ((updateStatus (trackDeletion emptyTrackerW "w" 0) "w" "s" "m" 5).statuses "w").map
        DeletionStatus.progress = some 5
  ∧ ((markCompleted (trackDeletion emptyTrackerW "w" 0) "w").1.statuses "w").map
        DeletionStatus.progress = some 100
  ∧ ((markFailed (trackDeletion emptyTrackerW "w" 0) "w" "boom").1.statuses "w").map
        DeletionStatus.progress = some 0 :=
  tracker_progress_policy (trackDeletion emptyTrackerW "w" 0) "w" "s" "m" "boom" 5
    (by decide)

/-- Claim C10: `UpdateStatus`, `MarkCompleted` and `MarkFailed` on an
untracked id leave the status table unchanged, report no error (their types
are infallible), and schedule no delayed self-expiry cleanup. -/
theorem tracker_unknown_id_noop (dt : DeletionTracker) (id s m e : String) (p : Int)
    (h : dt.statuses id = none) :
    updateStatus dt id s m p = dt
  ∧ markCompleted dt id = (dt, [])
  ∧ markFailed dt id e = (dt, []) := by
  refine ⟨?_, ?_, ?_⟩ <;> simp [updateStatus, markCompleted, markFailed, h]

/-- Witness for C10 on the empty tracker. -/
theorem tracker_unknown_id_noop_witness :
    updateStatus emptyTrackerW "ghost" "s" "m" 55 = emptyTrackerW
  ∧ markCompleted emptyTrackerW "ghost" = (emptyTrackerW, [])
  ∧ markFailed emptyTrackerW "ghost" "err" = (emptyTrackerW, []) :=
  tracker_unknown_id_noop emptyTrackerW "ghost" "s" "m" "err" 55 rfl

/-- Counterexample for C8: a primary deletion failing with `"not found"`
leaves the job's error field holding the wrapped message
`"failed to delete user from Zep server: not found"`, not `"not found"`. -/
theorem deletion_error_not_verbatim :
    ((deleteUserEnhanced clientNotFoundW "u" 0 emptyTrackerW emptyCacheW).1.statuses
        "u").map DeletionStatus.error
      = some "failed to delete user from Zep server: not found"
  ∧ ((deleteUserEnhanced clientNotFoundW "u" 0 emptyTrackerW emptyCacheW).1.statuses
        "u").map DeletionStatus.error ≠ some "not found" := by
  refine ⟨by decide, by decide⟩

/-- Amended C8: whenever the primary deletion fails with message `e`, the
job transitions to `failed` and its error field holds the downstream message
wrapped exactly once as `"failed to delete user from Zep server: " ++ e`. -/
theorem deletion_failed_error_wrapped {α : Type} (c : Client) (userID : String)
    (now : Nat) (dt : DeletionTracker) (cache : Cache α) (e : String)
    (h : c.deleteUser userID = some e) :
    ((deleteUserEnhanced c userID now dt cache).1.statuses userID).map
        DeletionStatus.status = some "failed"
  ∧ ((deleteUserEnhanced c userID now dt cache).1.statuses userID).map
        DeletionStatus.error
      = some ("failed to delete user from Zep server: " ++ e) := by
  have hres : (deleteUserWithCleanup c userID).result
      = Except.error ("failed to delete user from Zep server: " ++ e) := by
    simp [deleteUserWithCleanup, h]
  have hmk := markFailed_fields (preTerminalTracker c userID now dt) userID
    ("failed to delete user from Zep server: " ++ e)
    (preTerminalTracker_isSome c userID now dt)
  simp only [deleteUserEnhanced]
  rw [hres]
  exact ⟨hmk.1, hmk.2.1⟩

/-- Witness for the amended C8 at a concrete client whose primary deletion
fails with `"not found"`. -/
theorem deletion_failed_error_wrapped_witness :
    ((deleteUserEnhanced clientNotFoundW "w" 0 emptyTrackerW emptyCacheW).1.statuses
        "w").map DeletionStatus.status = some "failed"
  ∧ ((deleteUserEnhanced clientNotFoundW "w" 0 emptyTrackerW emptyCacheW).1.statuses
        "w").map DeletionStatus.error
      = some ("failed to delete user from Zep server: " ++ "not found") :=
  deletion_failed_error_wrapped clientNotFoundW "w" 0 emptyTrackerW emptyCacheW
    "not found" rfl

/-- Counterexample for C6: when the job reaches the terminal state `failed`,
the cached entry `user:u` is still served afterwards — no cache invalidation
happens on the failure path. -/
theorem failed_job_keeps_cache :
    ((deleteUserEnhanced clientNotFoundW "u" 0 emptyTrackerW cacheUserW).1.statuses
        "u").map DeletionStatus.status = some "failed"
  ∧ (deleteUserEnhanced clientNotFoundW "u" 0 emptyTrackerW cacheUserW).2.1.get
        "user:u" 10 = some 7 := by
  refine ⟨by decide, by decide⟩

/-- Amended C6: the `user:`, `episodes:` and `graph:` entries for the id are
invalidated only on reaching `Completed`; on reaching `Failed` the cache is
left untouched. -/
theorem terminal_cache_invalidation {α : Type} (c : Client) (userID : String)
    (now : Nat) (dt : DeletionTracker) (cache : Cache α) :
    (c.deleteUser userID = none →
      ((deleteUserEnhanced c userID now dt cache).2.1.items ("user:" ++ userID) = none
     ∧ (deleteUserEnhanced c userID now dt cache).2.1.items ("episodes:" ++ userID) = none
     ∧ (deleteUserEnhanced c userID now dt cache).2.1.items ("graph:" ++ userID) = none))
  ∧ (∀ e, c.deleteUser userID = some e →
      (deleteUserEnhanced c userID now dt cache).2.1 = cache) := by
  constructor
  · intro h
    have hres : (deleteUserWithCleanup c userID).result = Except.ok () := by
      simp [deleteUserWithCleanup, h]
    simp only [deleteUserEnhanced]
    rw [hres]
    refine ⟨?_, ?_, ?_⟩ <;> simp [Cache.delete, ite_self]
  · intro e h
    have hres : (deleteUserWithCleanup c userID).result
        = Except.error ("failed to delete user from Zep server: " ++ e) := by
      simp [deleteUserWithCleanup, h]
    simp only [deleteUserEnhanced]
    rw [hres]

/-- Witness for the amended C6: a successful run clears the three keys; a
failed run leaves the cache exactly as it was. -/
theorem terminal_cache_invalidation_witness :
    ((deleteUserEnhanced clientOkW "u" 0 emptyTrackerW cacheUserW).2.1.items
        ("user:" ++ "u") = none
   ∧ (deleteUserEnhanced clientOkW "u" 0 emptyTrackerW cacheUserW).2.1.items
        ("episodes:" ++ "u") = none
   ∧ (deleteUserEnhanced clientOkW "u" 0 emptyTrackerW cacheUserW).2.1.items
        ("graph:" ++ "u") = none)
  ∧ (deleteUserEnhanced clientNotFoundW "u" 0 emptyTrackerW cacheUserW).2.1
      = cacheUserW :=
  ⟨(terminal_cache_invalidation clientOkW "u" 0 emptyTrackerW cacheUserW).1 rfl,
   (terminal_cache_invalidation clientNotFoundW "u" 0 emptyTrackerW cacheUserW).2
     "not found" rfl⟩

/-- Claim C2, evaluated at the failing interleaving: under the serialized
schedule (request A runs its three steps, then request B) the background
load starts once, but under the interleaving where both requests pass the
loading-sentinel check before either stores the sentinel, the load starts
twice — the check and the start are not one atomic operation, so the
underlying computation is not invoked exactly once per cycle. -/
theorem userGraphAsync_check_then_act_race :
    (asyncRun [true, true, true, false, false, false]).st.invocations = 1
  ∧ (asyncRun [true, false, true, false, true, false]).st.invocations = 2 := by
  refine ⟨by decide, by decide⟩

end ZepWeb
